import Mathlib

/-
Verification of the core logic of the playwright-gis-framework repository.

Shallow embedding:
- `GISWaitStrategies.waitForCondition` (src/utils/gis-wait-strategies.ts,
  lines 197-225): the polling loop is modelled as a function of a predicate
  stream, a timeout and an interval, with an explicit fuel argument standing
  for the (finitely many) loop iterations that can fit into the time budget.
- `GISValidations` (validation utilities) and the legacy `GISHelpers`
  validation: numbers are modelled as rationals, so that all comparisons are
  exact and decidable.
- `GISCalculations` (geodesy) and the legacy `GISHelpers.calculateDistance`:
  numbers are modelled as real numbers; `Math.atan2` is modelled by
  `Complex.arg` (which realises exactly the atan2 branch conventions,
  including `atan2 0 0 = 0`), and the JS `%` operator on positive operands by
  a truncated-division remainder.
-/

/-- Result of one run of `waitForCondition`: either the predicate was
satisfied before the time budget ran out, or a `TimeoutError` was thrown. -/
inductive PollOutcome where
  | satisfied
  | timedOut
deriving DecidableEq, Repr

namespace GISWaitStrategies

/-- The `while (Date.now() - startTime < timeout)` loop of
`GISWaitStrategies.waitForCondition`.

`cond k` is the result of the `k`-th evaluation of the predicate: `some b`
models the promise resolving with boolean `b`, and `none` models an
evaluation that throws (the `catch` branch of the source, which only logs the
error and falls through to the next cycle).

Time model: the predicate evaluation is instantaneous and
`page.waitForTimeout(interval)` suspends exactly `interval` ms, so the guard
`Date.now() - startTime < timeout` at the start of iteration `k` reads
`k * interval < timeout`.

The result pairs the outcome with the number of predicate evaluations that
were made.  `fuel` bounds the number of iterations; `none` means the fuel ran
out (the caller supplies enough fuel for any positive interval). -/
def waitLoop (cond : Nat → Option Bool) (timeout interval : Nat) :
    Nat → Nat → Option (PollOutcome × Nat)
  | 0, _ => none
  | fuel + 1, k =>
    if k * interval < timeout then
      match cond k with
      | some true => some (PollOutcome.satisfied, k + 1)
      | _ => waitLoop cond timeout interval fuel (k + 1)
    else
      some (PollOutcome.timedOut, k)

/-- `GISWaitStrategies.waitForCondition`, with the options destructured into
`timeout` and `interval` (defaults 5000 and 100 in the source).  `timeout + 1`
units of fuel are enough for the loop to terminate whenever the interval is
positive. -/
def waitForCondition (cond : Nat → Option Bool) (timeout interval : Nat) :
    Option (PollOutcome × Nat) :=
  waitLoop cond timeout interval (timeout + 1) 0

theorem waitLoop_timedOut {cond : Nat → Option Bool} {timeout interval : Nat} :
    ∀ {fuel k cnt : Nat},
      waitLoop cond timeout interval fuel k = some (PollOutcome.timedOut, cnt) →
      timeout ≤ cnt * interval ∧ k ≤ cnt ∧
        ∀ j, k ≤ j → j < cnt → cond j ≠ some true := by
  intro fuel
  induction fuel with
  | zero => intro k cnt h; simp [waitLoop] at h
  | succ fuel ih =>
    intro k cnt h
    rw [waitLoop] at h
    by_cases hg : k * interval < timeout
    · rw [if_pos hg] at h
      rcases hck : cond k with _ | b
      · rw [hck] at h
        obtain ⟨h1, h2, h3⟩ := ih h
        exact ⟨h1, Nat.le_of_succ_le h2, fun j hkj hjc =>
          Or.elim (Nat.eq_or_lt_of_le hkj)
            (fun he => by rw [← he, hck]; simp)
            (fun hlt => h3 j hlt hjc)⟩
      · cases b with
        | true => rw [hck] at h; simp at h
        | false =>
          rw [hck] at h
          obtain ⟨h1, h2, h3⟩ := ih h
          exact ⟨h1, Nat.le_of_succ_le h2, fun j hkj hjc =>
            Or.elim (Nat.eq_or_lt_of_le hkj)
              (fun he => by rw [← he, hck]; simp)
              (fun hlt => h3 j hlt hjc)⟩
    · rw [if_neg hg] at h
      simp only [Option.some.injEq, Prod.mk.injEq] at h
      obtain ⟨-, hk⟩ := h
      subst hk
      exact ⟨Nat.le_of_not_lt hg, Nat.le_refl _, fun j h1 h2 => absurd h2 (Nat.not_lt.mpr h1)⟩

theorem waitLoop_satisfied {cond : Nat → Option Bool} {timeout interval m : Nat}
    (hm : m * interval < timeout) (hcond : cond m = some true) :
    ∀ {fuel k : Nat}, k ≤ m → m < k + fuel →
      (∀ j, k ≤ j → j < m → cond j ≠ some true) →
      waitLoop cond timeout interval fuel k = some (PollOutcome.satisfied, m + 1) := by
  intro fuel
  induction fuel with
  | zero => intro k h1 h2 _; omega
  | succ fuel ih =>
    intro k hkm hlt hnot
    rw [waitLoop]
    rcases Nat.eq_or_lt_of_le hkm with he | hklt
    · subst he
      rw [if_pos hm, hcond]
    · have hg : k * interval < timeout :=
        Nat.lt_of_le_of_lt (Nat.mul_le_mul_right interval (Nat.le_of_lt hklt)) hm
      rw [if_pos hg]
      have hkne : cond k ≠ some true := hnot k (Nat.le_refl k) hklt
      have hrec : waitLoop cond timeout interval fuel (k + 1) =
          some (PollOutcome.satisfied, m + 1) :=
        ih hklt (by omega) (fun j hj1 hj2 => hnot j (Nat.le_of_succ_le hj1) hj2)
      rcases hck : cond k with _ | b
      · exact hrec
      · cases b with
        | true => exact absurd hck hkne
        | false => exact hrec

theorem waitLoop_isSome {cond : Nat → Option Bool} {timeout interval : Nat}
    (hi : 0 < interval) :
    ∀ {fuel k : Nat}, timeout ≤ k * interval + fuel →
      ∃ r, waitLoop cond timeout interval (fuel + 1) k = some r := by
  intro fuel
  induction fuel with
  | zero =>
    intro k hk
    rw [waitLoop, if_neg (Nat.not_lt.mpr (by omega))]
    exact ⟨_, rfl⟩
  | succ fuel ih =>
    intro k hk
    rw [waitLoop]
    by_cases hg : k * interval < timeout
    · rw [if_pos hg]
      have hk' : timeout ≤ (k + 1) * interval + fuel := by
        have : k * interval + 1 ≤ (k + 1) * interval := by
          rw [Nat.succ_mul]; omega
        omega
      rcases hck : cond k with _ | b
      · exact ih hk'
      · cases b with
        | true => exact ⟨_, rfl⟩
        | false => exact ih hk'
    · rw [if_neg hg]
      exact ⟨_, rfl⟩

theorem waitLoop_cnt_ge {cond : Nat → Option Bool} {timeout interval : Nat} :
    ∀ {fuel k : Nat} {out : PollOutcome} {cnt : Nat},
      waitLoop cond timeout interval fuel k = some (out, cnt) → k ≤ cnt := by
  intro fuel
  induction fuel with
  | zero => intro k out cnt h; simp [waitLoop] at h
  | succ fuel ih =>
    intro k out cnt h
    rw [waitLoop] at h
    by_cases hg : k * interval < timeout
    · rw [if_pos hg] at h
      rcases hck : cond k with _ | b
      · rw [hck] at h; exact Nat.le_of_succ_le (ih h)
      · cases b with
        | true =>
          rw [hck] at h
          simp only [Option.some.injEq, Prod.mk.injEq] at h
          omega
        | false => rw [hck] at h; exact Nat.le_of_succ_le (ih h)
    · rw [if_neg hg] at h
      simp only [Option.some.injEq, Prod.mk.injEq] at h
      omega

end GISWaitStrategies

namespace GIS_CONFIG

namespace COORDINATE_LIMITS

def MIN_LATITUDE : ℚ := -90

def MAX_LATITUDE : ℚ := 90

def MIN_LONGITUDE : ℚ := -180

def MAX_LONGITUDE : ℚ := 180

end COORDINATE_LIMITS

/-- `GIS_CONFIG.EARTH_RADIUS_KM` (src config constants). -/
def EARTH_RADIUS_KM : ℝ := 6371

end GIS_CONFIG

/-- The `MapBounds` type of the config module (numbers as rationals). -/
structure MapBounds where
  north : ℚ
  south : ℚ
  east : ℚ
  west : ℚ

namespace GISValidations

/-- `GISValidations.validateCoordinates` (GIS validation utilities): pure
boolean range check against `GIS_CONFIG.COORDINATE_LIMITS` (the `logger.warn`
calls have no effect on the result). -/
def validateCoordinates (lat lng : ℚ) : Bool :=
  let isValidLat :=
    decide (GIS_CONFIG.COORDINATE_LIMITS.MIN_LATITUDE ≤ lat) &&
    decide (lat ≤ GIS_CONFIG.COORDINATE_LIMITS.MAX_LATITUDE)
  let isValidLng :=
    decide (GIS_CONFIG.COORDINATE_LIMITS.MIN_LONGITUDE ≤ lng) &&
    decide (lng ≤ GIS_CONFIG.COORDINATE_LIMITS.MAX_LONGITUDE)
  isValidLat && isValidLng

/-- `GISValidations.validateBounds`: structural check (`north > south`,
`east > west`) plus coordinate validation of both corner pairs. -/
def validateBounds (b : MapBounds) : Bool :=
  let isValidStructure := decide (b.south < b.north) && decide (b.west < b.east)
  let isValidCoordinates :=
    validateCoordinates b.north b.east && validateCoordinates b.south b.west
  isValidStructure && isValidCoordinates

end GISValidations

namespace GISHelpers

/-- Legacy `GISHelpers.validateCoordinates` (utils/gis-helpers.ts): same range
check with inlined literal limits. -/
def validateCoordinates (lat lng : ℚ) : Bool :=
  let isValidLat := decide (-90 ≤ lat) && decide (lat ≤ 90)
  let isValidLng := decide (-180 ≤ lng) && decide (lng ≤ 180)
  isValidLat && isValidLng

end GISHelpers

namespace GISCalculations

/-- `GISCalculations.degreesToRadians`. -/
noncomputable def degreesToRadians (degrees : ℝ) : ℝ :=
  degrees * (Real.pi / 180)

/-- `GISCalculations.radiansToDegrees`. -/
noncomputable def radiansToDegrees (r : ℝ) : ℝ :=
  r * (180 / Real.pi)

/-- Model of the JS builtin `Math.atan2 y x`: `Complex.arg` of the complex
number `x + y i` realises exactly the atan2 branch conventions — `arctan
(y/x)` for `x > 0`, `arctan (y/x) ± π` for `x < 0`, `± π/2` on the positive
and negative imaginary axis, and `atan2 0 0 = 0`. -/
noncomputable def atan2 (y x : ℝ) : ℝ :=
  Complex.arg (x + y * Complex.I)

/-- Model of the JS remainder operator `x % m` (for `m > 0`): `x` minus `m`
times the quotient `x / m` truncated toward zero, so the result takes the
sign of the dividend. -/
noncomputable def jsRem (x m : ℝ) : ℝ :=
  if 0 ≤ x / m then x - m * (⌊x / m⌋ : ℝ) else x - m * (⌈x / m⌉ : ℝ)

/-- `GISCalculations.calculateDistance`: Haversine distance in kilometers. -/
noncomputable def calculateDistance (lat1 lng1 lat2 lng2 : ℝ) : ℝ :=
  let R := GIS_CONFIG.EARTH_RADIUS_KM
  let dLat := degreesToRadians (lat2 - lat1)
  let dLng := degreesToRadians (lng2 - lng1)
  let a :=
    Real.sin (dLat / 2) * Real.sin (dLat / 2) +
      Real.cos (degreesToRadians lat1) * Real.cos (degreesToRadians lat2) *
        Real.sin (dLng / 2) * Real.sin (dLng / 2)
  let c := 2 * atan2 (Real.sqrt a) (Real.sqrt (1 - a))
  R * c

/-- `GISCalculations.calculateBearing`: initial bearing in degrees,
normalized by `((bearing * 180) / Math.PI + 360) % 360`. -/
noncomputable def calculateBearing (lat1 lng1 lat2 lng2 : ℝ) : ℝ :=
  let dLng := degreesToRadians (lng2 - lng1)
  let lat1Rad := degreesToRadians lat1
  let lat2Rad := degreesToRadians lat2
  let y := Real.sin dLng * Real.cos lat2Rad
  let x :=
    Real.cos lat1Rad * Real.sin lat2Rad -
      Real.sin lat1Rad * Real.cos lat2Rad * Real.cos dLng
  let bearing := atan2 y x
  jsRem (bearing * 180 / Real.pi + 360) 360

/-- The `{ lat, lng }` pair returned by `calculateDestination` and
`calculateMidpoint`. -/
structure LatLng where
  lat : ℝ
  lng : ℝ

/-- `GISCalculations.calculateDestination`: spherical forward projection of a
point by a bearing (degrees) and a distance (kilometers). -/
noncomputable def calculateDestination (lat lng bearing distance : ℝ) : LatLng :=
  let R := GIS_CONFIG.EARTH_RADIUS_KM
  let latRad := degreesToRadians lat
  let lngRad := degreesToRadians lng
  let bearingRad := degreesToRadians bearing
  let lat2Rad := Real.arcsin
    (Real.sin latRad * Real.cos (distance / R) +
      Real.cos latRad * Real.sin (distance / R) * Real.cos bearingRad)
  let lng2Rad := lngRad +
    atan2
      (Real.sin bearingRad * Real.sin (distance / R) * Real.cos latRad)
      (Real.cos (distance / R) - Real.sin latRad * Real.sin lat2Rad)
  ⟨radiansToDegrees lat2Rad, radiansToDegrees lng2Rad⟩

/-- One summand of the `calculatePolygonArea` loop at index `i`, with the
source's wrap-around index `j = (i + 1) % coordinates.length`.  Out-of-range
accesses (which never occur for `i < length`) read a default. -/
noncomputable def polygonTerm (coordinates : List LatLng) (i : Nat) : ℝ :=
  let j := (i + 1) % coordinates.length
  let lat1 := degreesToRadians ((coordinates.getD i ⟨0, 0⟩).lat)
  let lat2 := degreesToRadians ((coordinates.getD j ⟨0, 0⟩).lat)
  let lng1 := degreesToRadians ((coordinates.getD i ⟨0, 0⟩).lng)
  let lng2 := degreesToRadians ((coordinates.getD j ⟨0, 0⟩).lng)
  (lng2 - lng1) * (2 + Real.sin lat1 + Real.sin lat2)

/-- `GISCalculations.calculatePolygonArea`: 0 for fewer than 3 points,
otherwise the accumulated loop rescaled by `|...| * R * R / 2`. -/
noncomputable def calculatePolygonArea (coordinates : List LatLng) : ℝ :=
  if coordinates.length < 3 then 0
  else
    let R := GIS_CONFIG.EARTH_RADIUS_KM
    let area := ∑ i ∈ Finset.range coordinates.length, polygonTerm coordinates i
    |area| * R * R / 2

/-- The first loop of `GISCalculations.normalizeLongitude`:
`while (lng > 180) lng -= 360`. -/
noncomputable def normLngUp (lng : ℝ) : ℝ :=
  if 180 < lng then normLngUp (lng - 360) else lng
termination_by (⌈(lng - 180) / 360⌉).toNat
decreasing_by
  have h1 : (lng - 360 - 180) / 360 = (lng - 180) / 360 - 1 := by ring
  have h2 : (0 : ℝ) < (lng - 180) / 360 := by
    apply div_pos <;> [linarith; norm_num]
  have h3 : 0 < ⌈(lng - 180) / 360⌉ := Int.ceil_pos.mpr h2
  rw [h1, Int.ceil_sub_one]
  omega

/-- The second loop of `GISCalculations.normalizeLongitude`:
`while (lng < -180) lng += 360`. -/
noncomputable def normLngDown (lng : ℝ) : ℝ :=
  if lng < -180 then normLngDown (lng + 360) else lng
termination_by (⌈(-180 - lng) / 360⌉).toNat
decreasing_by
  have h1 : (-180 - (lng + 360)) / 360 = (-180 - lng) / 360 - 1 := by ring
  have h2 : (0 : ℝ) < (-180 - lng) / 360 := by
    apply div_pos <;> [linarith; norm_num]
  have h3 : 0 < ⌈(-180 - lng) / 360⌉ := Int.ceil_pos.mpr h2
  rw [h1, Int.ceil_sub_one]
  omega

/-- `GISCalculations.normalizeLongitude`: the two `while` loops in source
order. -/
noncomputable def normalizeLongitude (lng : ℝ) : ℝ :=
  normLngDown (normLngUp lng)

/-- `GISCalculations.normalizeLatitude`: `Math.max(-90, Math.min(90, lat))`. -/
noncomputable def normalizeLatitude (lat : ℝ) : ℝ :=
  max (-90) (min 90 lat)

end GISCalculations

namespace GISHelpers

/-- Legacy `GISHelpers.calculateDistance` (utils/gis-helpers.ts): same
Haversine formula with the Earth radius inlined as the literal 6371. -/
noncomputable def calculateDistance (lat1 lng1 lat2 lng2 : ℝ) : ℝ :=
  let R : ℝ := 6371
  let dLat := GISCalculations.degreesToRadians (lat2 - lat1)
  let dLng := GISCalculations.degreesToRadians (lng2 - lng1)
  let a :=
    Real.sin (dLat / 2) * Real.sin (dLat / 2) +
      Real.cos (GISCalculations.degreesToRadians lat1) *
        Real.cos (GISCalculations.degreesToRadians lat2) *
        Real.sin (dLng / 2) * Real.sin (dLng / 2)
  let c := 2 * GISCalculations.atan2 (Real.sqrt a) (Real.sqrt (1 - a))
  R * c

end GISHelpers

namespace GISCalculations

theorem atan2_mem_Ioc (y x : ℝ) : atan2 y x ∈ Set.Ioc (-Real.pi) Real.pi :=
  Complex.arg_mem_Ioc _

theorem mkC_re (x y : ℝ) : (↑x + ↑y * Complex.I).re = x := by simp

theorem mkC_im (x y : ℝ) : (↑x + ↑y * Complex.I).im = y := by simp

theorem mkC_abs (x y : ℝ) :
    Complex.abs (↑x + ↑y * Complex.I) = Real.sqrt (x ^ 2 + y ^ 2) :=
  Complex.abs_add_mul_I x y

theorem mkC_eq_zero_iff {x y : ℝ} :
    (↑x + ↑y * Complex.I) = 0 ↔ x = 0 ∧ y = 0 := by
  constructor
  · intro h
    constructor
    · have := congrArg Complex.re h; simpa using this
    · have := congrArg Complex.im h; simpa using this
  · rintro ⟨hx, hy⟩; simp [hx, hy]

theorem sin_atan2 (y x : ℝ) :
    Real.sin (atan2 y x) * Real.sqrt (x ^ 2 + y ^ 2) = y := by
  have h := Complex.sin_arg (↑x + ↑y * Complex.I)
  rw [mkC_im, mkC_abs] at h
  rcases eq_or_ne (Real.sqrt (x ^ 2 + y ^ 2)) 0 with hs | hs
  · have hxy : x ^ 2 + y ^ 2 = 0 := by
      have hnn : 0 ≤ x ^ 2 + y ^ 2 := by positivity
      exact (Real.sqrt_eq_zero hnn).mp hs
    have hy : y = 0 := by nlinarith [sq_nonneg x, sq_nonneg y]
    rw [hs, hy, mul_zero]
  · rw [atan2, h, div_mul_cancel₀ _ hs]

theorem cos_atan2 (y x : ℝ) :
    Real.cos (atan2 y x) * Real.sqrt (x ^ 2 + y ^ 2) = x := by
  rcases eq_or_ne (↑x + ↑y * Complex.I) 0 with hz | hz
  · obtain ⟨hx, hy⟩ := mkC_eq_zero_iff.mp hz
    rw [hx, hy]
    norm_num
  · have h := Complex.cos_arg hz
    rw [mkC_re, mkC_abs] at h
    rcases eq_or_ne (Real.sqrt (x ^ 2 + y ^ 2)) 0 with hs | hs
    · have hxy : x ^ 2 + y ^ 2 = 0 := by
        have hnn : 0 ≤ x ^ 2 + y ^ 2 := by positivity
        exact (Real.sqrt_eq_zero hnn).mp hs
      have hx : x = 0 := by nlinarith [sq_nonneg x, sq_nonneg y]
      rw [hs, hx, mul_zero]
    · rw [atan2, h, div_mul_cancel₀ _ hs]

theorem atan2_pos_mul {r : ℝ} (hr : 0 < r) (y x : ℝ) :
    atan2 (r * y) (r * x) = atan2 y x := by
  unfold atan2
  have h : (↑(r * x) + ↑(r * y) * Complex.I) = ↑r * (↑x + ↑y * Complex.I) := by
    push_cast
    ring
  rw [h, Complex.arg_real_mul _ hr]

theorem atan2_sin_cos {t : ℝ} (ht : t ∈ Set.Ioc (-Real.pi) Real.pi) :
    atan2 (Real.sin t) (Real.cos t) = t := by
  unfold atan2
  have h : ((Real.cos t : ℂ) + (Real.sin t : ℂ) * Complex.I) =
      Complex.cos t + Complex.sin t * Complex.I := by
    rw [Complex.ofReal_sin, Complex.ofReal_cos]
  rw [h, Complex.arg_cos_add_sin_mul_I ht]

theorem atan2_pos_of_im_pos {y x : ℝ} (hy : 0 < y) : 0 < atan2 y x := by
  unfold atan2
  have him : (0 : ℝ) ≤ (↑x + ↑y * Complex.I).im := by
    rw [mkC_im]; exact hy.le
  rcases lt_or_eq_of_le (Complex.arg_nonneg_iff.mpr him) with h | h
  · exact h
  · exfalso
    have := (Complex.arg_eq_zero_iff.mp h.symm).2
    rw [mkC_im] at this
    exact hy.ne' this

theorem jsRem_sub_int (x m : ℝ) : ∃ k : ℤ, jsRem x m = x - m * k := by
  unfold jsRem
  by_cases h : 0 ≤ x / m
  · exact ⟨⌊x / m⌋, by rw [if_pos h]⟩
  · exact ⟨⌈x / m⌉, by rw [if_neg h]⟩

theorem jsRem_nonneg_lt {x m : ℝ} (hx : 0 ≤ x) (hm : 0 < m) :
    0 ≤ jsRem x m ∧ jsRem x m < m := by
  have hq : 0 ≤ x / m := div_nonneg hx hm.le
  have hfr : jsRem x m = m * Int.fract (x / m) := by
    unfold jsRem
    rw [if_pos hq, Int.fract]
    field_simp
  constructor
  · rw [hfr]; exact mul_nonneg hm.le (Int.fract_nonneg _)
  · rw [hfr]
    calc m * Int.fract (x / m) < m * 1 :=
      (mul_lt_mul_left hm).mpr (Int.fract_lt_one _)
    _ = m := mul_one m

theorem exists_int_sub_two_pi_mem (t : ℝ) :
    ∃ j : ℤ, t - 2 * Real.pi * j ∈ Set.Ioc (-Real.pi) Real.pi := by
  have h2pi : (0 : ℝ) < 2 * Real.pi := by positivity
  have hcancel : (t - Real.pi) / (2 * Real.pi) * (2 * Real.pi) = t - Real.pi :=
    div_mul_cancel₀ _ h2pi.ne'
  refine ⟨⌈(t - Real.pi) / (2 * Real.pi)⌉, ?_, ?_⟩
  · have hlt : (⌈(t - Real.pi) / (2 * Real.pi)⌉ : ℝ) <
        (t - Real.pi) / (2 * Real.pi) + 1 := Int.ceil_lt_add_one _
    have := (mul_lt_mul_right h2pi).mpr hlt
    nlinarith [Real.pi_pos]
  · have hle : (t - Real.pi) / (2 * Real.pi) ≤
        (⌈(t - Real.pi) / (2 * Real.pi)⌉ : ℝ) := Int.le_ceil _
    have := (mul_le_mul_right h2pi).mpr hle
    nlinarith

end GISCalculations

/-- Claim C1 counterexample: with `timeout = 0` the guard
`Date.now() - startTime < timeout` is false on entry, so the loop body never
runs: the predicate is evaluated zero times — not once — and a
`TimeoutError` is thrown even for a predicate that is constantly true. -/
theorem claim_C1_counterexample :
    GISWaitStrategies.waitForCondition (fun _ => some true) 0 100 =
      some (PollOutcome.timedOut, 0) ∧
    GISWaitStrategies.waitForCondition (fun _ => some true) 0 100 ≠
      some (PollOutcome.satisfied, 1) := by
  constructor
  · rfl
  · decide

/-- Claim C1 (amended): when `options.timeout` is 0 the poll makes zero
evaluation attempts and throws a `TimeoutError` regardless of the predicate;
the predicate is evaluated at least once whenever the timeout is positive
(and a predicate true on that first attempt makes the call succeed). -/
theorem claim_C1 :
    (∀ (cond : Nat → Option Bool) (interval : Nat),
      GISWaitStrategies.waitForCondition cond 0 interval =
        some (PollOutcome.timedOut, 0)) ∧
    (∀ (cond : Nat → Option Bool) (timeout interval : Nat),
      0 < timeout → cond 0 = some true →
      GISWaitStrategies.waitForCondition cond timeout interval =
        some (PollOutcome.satisfied, 1)) ∧
    (∀ (cond : Nat → Option Bool) (timeout interval : Nat),
      0 < timeout → 0 < interval →
      ∃ out cnt, GISWaitStrategies.waitForCondition cond timeout interval =
        some (out, cnt) ∧ 1 ≤ cnt) := by
  refine ⟨?_, ?_, ?_⟩
  · intro cond interval
    rw [GISWaitStrategies.waitForCondition, GISWaitStrategies.waitLoop,
      if_neg (by simp)]
  · intro cond timeout interval ht hc
    rw [GISWaitStrategies.waitForCondition, GISWaitStrategies.waitLoop,
      if_pos (by simpa using ht), hc]
  · intro cond timeout interval ht hi
    have hsome := @GISWaitStrategies.waitLoop_isSome cond timeout interval hi
      timeout 0 (by simp)
    obtain ⟨⟨out, cnt⟩, hr⟩ := hsome
    rw [← GISWaitStrategies.waitForCondition] at hr
    refine ⟨out, cnt, hr, ?_⟩
    rw [GISWaitStrategies.waitForCondition, GISWaitStrategies.waitLoop,
      if_pos (by simpa using ht)] at hr
    rcases hck : cond 0 with _ | b
    · rw [hck] at hr
      exact GISWaitStrategies.waitLoop_cnt_ge hr
    · cases b with
      | true =>
        rw [hck] at hr
        simp only [Option.some.injEq, Prod.mk.injEq] at hr
        omega
      | false =>
        rw [hck] at hr
        exact GISWaitStrategies.waitLoop_cnt_ge hr

/-- Claim C1 witness: with a positive timeout, a predicate that is true on
its first evaluation makes the call succeed after exactly one evaluation. -/
theorem claim_C1_witness :
    GISWaitStrategies.waitForCondition (fun _ => some true) 5 2 =
      some (PollOutcome.satisfied, 1) :=
  claim_C1.2.1 (fun _ => some true) 5 2 (by decide) rfl

/-- Claim C2: `waitForCondition`'s only failure outcome is the timeout, which
occurs only once the time budget is exhausted; a predicate evaluation that
throws (modelled as `none`) is treated as "not yet satisfied" for that cycle
and never aborts the poll, so a predicate that throws on its first
evaluations and returns true on evaluation `m` within the timeout makes the
call succeed. -/
theorem claim_C2 :
    (∀ (cond : Nat → Option Bool) (timeout interval m : Nat),
      0 < interval → m * interval < timeout → cond m = some true →
      (∀ j, j < m → cond j ≠ some true) →
      GISWaitStrategies.waitForCondition cond timeout interval =
        some (PollOutcome.satisfied, m + 1)) ∧
    (∀ (cond : Nat → Option Bool) (timeout interval cnt : Nat),
      GISWaitStrategies.waitForCondition cond timeout interval =
        some (PollOutcome.timedOut, cnt) →
      timeout ≤ cnt * interval ∧ ∀ j, j < cnt → cond j ≠ some true) := by
  constructor
  · intro cond timeout interval m hi hm hc hnot
    apply GISWaitStrategies.waitLoop_satisfied hm hc (Nat.zero_le m)
    · have hmm : m ≤ m * interval := Nat.le_mul_of_pos_right m hi
      omega
    · exact fun j _ hj => hnot j hj
  · intro cond timeout interval cnt h
    obtain ⟨h1, -, h3⟩ := GISWaitStrategies.waitLoop_timedOut h
    exact ⟨h1, fun j hj => h3 j (Nat.zero_le j) hj⟩

/-- Claim C2 witness: a predicate that throws on evaluations 0 and 1 and
returns true on evaluation 2 succeeds within a 1000ms budget at 100ms
interval, after exactly 3 evaluations. -/
theorem claim_C2_witness :
    GISWaitStrategies.waitForCondition
      (fun j => if j < 2 then none else some true) 1000 100 =
      some (PollOutcome.satisfied, 3) :=
  claim_C2.1 (fun j => if j < 2 then none else some true) 1000 100 2
    (by decide) (by decide) (by decide) (by decide)

/-- Claim C3: `validateCoordinates lat lng` is true exactly when `lat` lies in
[-90, 90] and `lng` in [-180, 180] (boundaries valid); it is a total boolean
function (never throws).  The claim's concrete instances hold:
`validateCoordinates 90 180 = true` and
`validateCoordinates 90.0001 0 = false`. -/
theorem claim_C3 :
    (∀ lat lng : ℚ, GISValidations.validateCoordinates lat lng = true ↔
      (-90 ≤ lat ∧ lat ≤ 90 ∧ -180 ≤ lng ∧ lng ≤ 180)) ∧
    GISValidations.validateCoordinates 90 180 = true ∧
    GISValidations.validateCoordinates 90.0001 0 = false := by
  have hiff : ∀ lat lng : ℚ, GISValidations.validateCoordinates lat lng = true ↔
      (-90 ≤ lat ∧ lat ≤ 90 ∧ -180 ≤ lng ∧ lng ≤ 180) := by
    intro lat lng
    simp only [GISValidations.validateCoordinates,
      GIS_CONFIG.COORDINATE_LIMITS.MIN_LATITUDE,
      GIS_CONFIG.COORDINATE_LIMITS.MAX_LATITUDE,
      GIS_CONFIG.COORDINATE_LIMITS.MIN_LONGITUDE,
      GIS_CONFIG.COORDINATE_LIMITS.MAX_LONGITUDE,
      Bool.and_eq_true, decide_eq_true_eq]
    tauto
  refine ⟨hiff, ?_, ?_⟩
  · rw [hiff]
    norm_num
  · rw [Bool.eq_false_iff, ne_eq, hiff]
    norm_num

/-- Claim C9: `validateBounds` is true exactly when `north > south` strictly,
`east > west` strictly, and both corner pairs pass `validateCoordinates`;
the inverted box `{north:10, south:20, east:10, west:20}` is rejected. -/
theorem claim_C9 :
    (∀ b : MapBounds, GISValidations.validateBounds b = true ↔
      (b.south < b.north ∧ b.west < b.east ∧
        GISValidations.validateCoordinates b.north b.east = true ∧
        GISValidations.validateCoordinates b.south b.west = true)) ∧
    GISValidations.validateBounds ⟨10, 20, 10, 20⟩ = false := by
  constructor
  · intro b
    simp only [GISValidations.validateBounds, Bool.and_eq_true,
      decide_eq_true_eq]
    tauto
  · decide

/-- Claim C10: the legacy helpers agree with the current implementations —
`GISHelpers.validateCoordinates` returns the same boolean as
`GISValidations.validateCoordinates` on every input, and
`GISHelpers.calculateDistance` returns the same value as
`GISCalculations.calculateDistance` on every input. -/
theorem claim_C10 :
    (∀ lat lng : ℚ, GISHelpers.validateCoordinates lat lng =
      GISValidations.validateCoordinates lat lng) ∧
    (∀ lat1 lng1 lat2 lng2 : ℝ, GISHelpers.calculateDistance lat1 lng1 lat2 lng2 =
      GISCalculations.calculateDistance lat1 lng1 lat2 lng2) :=
  ⟨fun _ _ => rfl, fun _ _ _ _ => rfl⟩

namespace GISCalculations

/-- The haversine `a` term of `calculateDistance`, named for reuse in
proofs. -/
noncomputable def haversineA (lat1 lng1 lat2 lng2 : ℝ) : ℝ :=
  Real.sin (degreesToRadians (lat2 - lat1) / 2) *
      Real.sin (degreesToRadians (lat2 - lat1) / 2) +
    Real.cos (degreesToRadians lat1) * Real.cos (degreesToRadians lat2) *
      Real.sin (degreesToRadians (lng2 - lng1) / 2) *
      Real.sin (degreesToRadians (lng2 - lng1) / 2)

theorem calculateDistance_eq (lat1 lng1 lat2 lng2 : ℝ) :
    calculateDistance lat1 lng1 lat2 lng2 =
      GIS_CONFIG.EARTH_RADIUS_KM *
        (2 * atan2 (Real.sqrt (haversineA lat1 lng1 lat2 lng2))
          (Real.sqrt (1 - haversineA lat1 lng1 lat2 lng2))) := rfl

theorem haversineA_comm (lat1 lng1 lat2 lng2 : ℝ) :
    haversineA lat1 lng1 lat2 lng2 = haversineA lat2 lng2 lat1 lng1 := by
  unfold haversineA degreesToRadians
  have h1 : Real.sin ((lat1 - lat2) * (Real.pi / 180) / 2) =
      -Real.sin ((lat2 - lat1) * (Real.pi / 180) / 2) := by
    rw [show (lat1 - lat2) * (Real.pi / 180) / 2 =
      -((lat2 - lat1) * (Real.pi / 180) / 2) by ring, Real.sin_neg]
  have h2 : Real.sin ((lng1 - lng2) * (Real.pi / 180) / 2) =
      -Real.sin ((lng2 - lng1) * (Real.pi / 180) / 2) := by
    rw [show (lng1 - lng2) * (Real.pi / 180) / 2 =
      -((lng2 - lng1) * (Real.pi / 180) / 2) by ring, Real.sin_neg]
  rw [h1, h2]
  ring

theorem haversineA_self (lat lng : ℝ) : haversineA lat lng lat lng = 0 := by
  simp [haversineA, degreesToRadians]

theorem atan2_zero_one : atan2 0 1 = 0 := by
  have h : ((1 : ℝ) : ℂ) + ((0 : ℝ) : ℂ) * Complex.I = 1 := by
    push_cast
    ring
  rw [atan2, h, Complex.arg_one]

theorem calculateDistance_symm (lat1 lng1 lat2 lng2 : ℝ) :
    calculateDistance lat1 lng1 lat2 lng2 = calculateDistance lat2 lng2 lat1 lng1 := by
  rw [calculateDistance_eq, calculateDistance_eq, haversineA_comm]

theorem calculateDistance_self (lat lng : ℝ) :
    calculateDistance lat lng lat lng = 0 := by
  rw [calculateDistance_eq, haversineA_self, Real.sqrt_zero, sub_zero,
    Real.sqrt_one, atan2_zero_one]
  ring

end GISCalculations

/-- Claim C4: the Haversine distance from a point to itself is exactly 0, and
`calculateDistance` is exactly symmetric in its two endpoints (so in
particular symmetric within the claimed 1e-9 tolerance). -/
theorem claim_C4 :
    (∀ lat lng : ℝ, GISCalculations.calculateDistance lat lng lat lng = 0) ∧
    (∀ lat1 lng1 lat2 lng2 : ℝ,
      GISCalculations.calculateDistance lat1 lng1 lat2 lng2 =
        GISCalculations.calculateDistance lat2 lng2 lat1 lng1 ∧
      |GISCalculations.calculateDistance lat1 lng1 lat2 lng2 -
        GISCalculations.calculateDistance lat2 lng2 lat1 lng1| ≤ 1e-9) := by
  refine ⟨GISCalculations.calculateDistance_self, fun lat1 lng1 lat2 lng2 => ?_⟩
  refine ⟨GISCalculations.calculateDistance_symm lat1 lng1 lat2 lng2, ?_⟩
  rw [GISCalculations.calculateDistance_symm lat1 lng1 lat2 lng2]
  simp
  norm_num

namespace GISCalculations

/-- The `y` term of `calculateBearing`, named for reuse in proofs. -/
noncomputable def bearingY (lat1 lng1 lat2 lng2 : ℝ) : ℝ :=
  Real.sin (degreesToRadians (lng2 - lng1)) * Real.cos (degreesToRadians lat2)

/-- The `x` term of `calculateBearing`, named for reuse in proofs. -/
noncomputable def bearingX (lat1 lng1 lat2 lng2 : ℝ) : ℝ :=
  Real.cos (degreesToRadians lat1) * Real.sin (degreesToRadians lat2) -
    Real.sin (degreesToRadians lat1) * Real.cos (degreesToRadians lat2) *
      Real.cos (degreesToRadians (lng2 - lng1))

theorem calculateBearing_eq (lat1 lng1 lat2 lng2 : ℝ) :
    calculateBearing lat1 lng1 lat2 lng2 =
      jsRem (atan2 (bearingY lat1 lng1 lat2 lng2) (bearingX lat1 lng1 lat2 lng2) *
        180 / Real.pi + 360) 360 := rfl

theorem bearingDeg_bounds {θ : ℝ} (hθ : θ ∈ Set.Ioc (-Real.pi) Real.pi) :
    0 ≤ jsRem (θ * 180 / Real.pi + 360) 360 ∧
      jsRem (θ * 180 / Real.pi + 360) 360 < 360 := by
  apply jsRem_nonneg_lt _ (by norm_num)
  have hpi := Real.pi_pos
  have hc : Real.pi * (180 / Real.pi) = 180 := by field_simp
  have h1 : 0 ≤ (θ + Real.pi) * (180 / Real.pi) :=
    mul_nonneg (by linarith [hθ.1]) (by positivity)
  have h2 : θ * 180 / Real.pi = θ * (180 / Real.pi) := by ring
  rw [h2]
  nlinarith [h1, hc]

theorem jsRem_add360 {d : ℝ} (h1 : 0 < d) (h2 : d ≤ 180) :
    jsRem (d + 360) 360 = d := by
  unfold jsRem
  rw [if_pos (div_nonneg (by linarith) (by norm_num))]
  have hfl : ⌊(d + 360) / 360⌋ = 1 := by
    rw [Int.floor_eq_iff]
    constructor
    · rw [le_div_iff (by norm_num : (0:ℝ) < 360)]
      push_cast
      linarith
    · rw [div_lt_iff (by norm_num : (0:ℝ) < 360)]
      push_cast
      linarith
  rw [hfl]
  push_cast
  ring

end GISCalculations

/-- Claim C5: `calculateBearing` always returns a value in the half-open
interval [0, 360); the bearing from San Francisco (37.7749, -122.4194) to
New York (40.7128, -74.0060) is strictly between 0 and 360. -/
theorem claim_C5 :
    (∀ lat1 lng1 lat2 lng2 : ℝ,
      0 ≤ GISCalculations.calculateBearing lat1 lng1 lat2 lng2 ∧
      GISCalculations.calculateBearing lat1 lng1 lat2 lng2 < 360) ∧
    (0 < GISCalculations.calculateBearing 37.7749 (-122.4194) 40.7128 (-74.0060) ∧
      GISCalculations.calculateBearing 37.7749 (-122.4194) 40.7128 (-74.0060) < 360) := by
  have hpi := Real.pi_pos
  constructor
  · intro lat1 lng1 lat2 lng2
    rw [GISCalculations.calculateBearing_eq]
    exact GISCalculations.bearingDeg_bounds (GISCalculations.atan2_mem_Ioc _ _)
  · have hy : 0 < GISCalculations.bearingY 37.7749 (-122.4194) 40.7128 (-74.0060) := by
      unfold GISCalculations.bearingY GISCalculations.degreesToRadians
      have harg : (-74.0060 : ℝ) - -122.4194 = 48.4134 := by norm_num
      rw [harg]
      apply mul_pos
      · apply Real.sin_pos_of_pos_of_lt_pi
        · positivity
        · linarith
      · apply Real.cos_pos_of_mem_Ioo
        constructor
        · linarith
        · linarith
    set θ := GISCalculations.atan2
      (GISCalculations.bearingY 37.7749 (-122.4194) 40.7128 (-74.0060))
      (GISCalculations.bearingX 37.7749 (-122.4194) 40.7128 (-74.0060)) with hθdef
    have hθ1 : 0 < θ := GISCalculations.atan2_pos_of_im_pos hy
    have hθ2 : θ ≤ Real.pi := (GISCalculations.atan2_mem_Ioc _ _).2
    have hd2' : θ * (180 / Real.pi) ≤ Real.pi * (180 / Real.pi) :=
      mul_le_mul_of_nonneg_right hθ2 (by positivity)
    have hc : Real.pi * (180 / Real.pi) = 180 := by field_simp
    have hdeq : θ * 180 / Real.pi = θ * (180 / Real.pi) := by ring
    have hd1 : 0 < θ * 180 / Real.pi := by
      rw [hdeq]
      positivity
    have hd2 : θ * 180 / Real.pi ≤ 180 := by
      rw [hdeq]
      linarith
    rw [GISCalculations.calculateBearing_eq, ← hθdef,
      GISCalculations.jsRem_add360 hd1 hd2]
    exact ⟨hd1, by linarith⟩

namespace GISCalculations

theorem normLngUp_le (lng : ℝ) : normLngUp lng ≤ 180 := by
  induction lng using normLngUp.induct with
  | case1 lng h ih => rw [normLngUp, if_pos h]; exact ih
  | case2 lng h => rw [normLngUp, if_neg h]; linarith [not_lt.mp h]

theorem normLngUp_congr (lng : ℝ) : ∃ k : ℤ, normLngUp lng = lng + 360 * k := by
  induction lng using normLngUp.induct with
  | case1 lng h ih =>
    obtain ⟨k, hk⟩ := ih
    refine ⟨k - 1, ?_⟩
    rw [normLngUp, if_pos h, hk]
    push_cast
    ring
  | case2 lng h => exact ⟨0, by rw [normLngUp, if_neg h]; simp⟩

theorem normLngDown_ge (lng : ℝ) : -180 ≤ normLngDown lng := by
  induction lng using normLngDown.induct with
  | case1 lng h ih => rw [normLngDown, if_pos h]; exact ih
  | case2 lng h => rw [normLngDown, if_neg h]; linarith [not_lt.mp h]

theorem normLngDown_le {lng : ℝ} (hle : lng ≤ 180) : normLngDown lng ≤ 180 := by
  induction lng using normLngDown.induct with
  | case1 lng h ih => rw [normLngDown, if_pos h]; exact ih (by linarith)
  | case2 lng h => rw [normLngDown, if_neg h]; exact hle

theorem normLngDown_congr (lng : ℝ) : ∃ k : ℤ, normLngDown lng = lng + 360 * k := by
  induction lng using normLngDown.induct with
  | case1 lng h ih =>
    obtain ⟨k, hk⟩ := ih
    refine ⟨k + 1, ?_⟩
    rw [normLngDown, if_pos h, hk]
    push_cast
    ring
  | case2 lng h => exact ⟨0, by rw [normLngDown, if_neg h]; simp⟩

end GISCalculations

/-- Claim C8: `normalizeLongitude` maps any real input into [-180, 180] and
differs from its input by an integer multiple of 360 (repeated ±360
adjustment); `normalizeLatitude` clamps into [-90, 90] (every output is
either the input itself or one of the two bounds — no wrapping);
`normalizeLongitude 200 = -160`, `normalizeLongitude (-200) = 160`,
`normalizeLatitude 95 = 90`, `normalizeLatitude (-95) = -90`. -/
theorem claim_C8 :
    (∀ lng : ℝ, -180 ≤ GISCalculations.normalizeLongitude lng ∧
      GISCalculations.normalizeLongitude lng ≤ 180 ∧
      ∃ k : ℤ, GISCalculations.normalizeLongitude lng = lng + 360 * k) ∧
    (∀ lat : ℝ, -90 ≤ GISCalculations.normalizeLatitude lat ∧
      GISCalculations.normalizeLatitude lat ≤ 90 ∧
      (GISCalculations.normalizeLatitude lat = lat ∨
        GISCalculations.normalizeLatitude lat = 90 ∨
        GISCalculations.normalizeLatitude lat = -90)) ∧
    GISCalculations.normalizeLongitude 200 = -160 ∧
    GISCalculations.normalizeLongitude (-200) = 160 ∧
    GISCalculations.normalizeLatitude 95 = 90 ∧
    GISCalculations.normalizeLatitude (-95) = -90 := by
  refine ⟨?_, ?_, ?_, ?_, ?_, ?_⟩
  · intro lng
    refine ⟨GISCalculations.normLngDown_ge _,
      GISCalculations.normLngDown_le (GISCalculations.normLngUp_le lng), ?_⟩
    obtain ⟨k1, hk1⟩ := GISCalculations.normLngUp_congr lng
    obtain ⟨k2, hk2⟩ := GISCalculations.normLngDown_congr (GISCalculations.normLngUp lng)
    refine ⟨k1 + k2, ?_⟩
    rw [GISCalculations.normalizeLongitude, hk2, hk1]
    push_cast
    ring
  · intro lat
    refine ⟨le_max_left _ _, max_le (by norm_num) (min_le_left _ _), ?_⟩
    rcases le_total lat (-90) with h1 | h1
    · refine Or.inr (Or.inr ?_)
      rw [GISCalculations.normalizeLatitude,
        min_eq_right (by linarith : lat ≤ 90), max_eq_left h1]
    · rcases le_total lat 90 with h2 | h2
      · refine Or.inl ?_
        rw [GISCalculations.normalizeLatitude, min_eq_right h2, max_eq_right h1]
      · refine Or.inr (Or.inl ?_)
        rw [GISCalculations.normalizeLatitude, min_eq_left h2,
          max_eq_right (by norm_num : (-90:ℝ) ≤ 90)]
  · have h1 : GISCalculations.normLngUp 200 = -160 := by
      rw [GISCalculations.normLngUp, if_pos (by norm_num : (180:ℝ) < 200),
        show (200:ℝ) - 360 = -160 by norm_num,
        GISCalculations.normLngUp, if_neg (by norm_num)]
    rw [GISCalculations.normalizeLongitude, h1,
      GISCalculations.normLngDown, if_neg (by norm_num)]
  · have h1 : GISCalculations.normLngUp (-200) = -200 := by
      rw [GISCalculations.normLngUp, if_neg (by norm_num)]
    rw [GISCalculations.normalizeLongitude, h1,
      GISCalculations.normLngDown, if_pos (by norm_num : (-200:ℝ) < -180),
      show (-200:ℝ) + 360 = 160 by norm_num,
      GISCalculations.normLngDown, if_neg (by norm_num)]
  · rw [GISCalculations.normalizeLatitude,
      min_eq_left (by norm_num : (90:ℝ) ≤ 95),
      max_eq_right (by norm_num : (-90:ℝ) ≤ 90)]
  · rw [GISCalculations.normalizeLatitude,
      min_eq_right (by norm_num : (-95:ℝ) ≤ 90),
      max_eq_left (by norm_num : (-95:ℝ) ≤ -90)]

namespace GISCalculations

/-- One summand of the closed-wrap formulation of the polygon area: the
contribution of a consecutive vertex pair. -/
noncomputable def pairTerm (p q : LatLng) : ℝ :=
  (degreesToRadians q.lng - degreesToRadians p.lng) *
    (2 + Real.sin (degreesToRadians p.lat) + Real.sin (degreesToRadians q.lat))

/-- The closed-wrap formulation of the polygon area, as the spec words it:
sum the contribution of every consecutive vertex pair, the pair
(last, first) included (obtained here by zipping the list with its rotation
by one), then rescale exactly as the source loop does. -/
noncomputable def closedWrapArea (coordinates : List LatLng) : ℝ :=
  |((coordinates.zip (coordinates.rotate 1)).map fun pq => pairTerm pq.1 pq.2).sum| *
    GIS_CONFIG.EARTH_RADIUS_KM * GIS_CONFIG.EARTH_RADIUS_KM / 2

theorem list_map_sum_getD {α : Type} (f : α → ℝ) (d : α) :
    ∀ l : List α, (l.map f).sum = ∑ i ∈ Finset.range l.length, f (l.getD i d)
  | [] => by simp
  | a :: l => by
    rw [List.map_cons, List.sum_cons, List.length_cons, Finset.sum_range_succ']
    simp only [List.getD_cons_succ, List.getD_cons_zero]
    rw [list_map_sum_getD f d l]
    ring

theorem rotate_one_getD (l : List LatLng) (d : LatLng) (i : Nat)
    (hi : i < l.length) :
    (l.rotate 1).getD i d = l.getD ((i + 1) % l.length) d := by
  have h1 : i < (l.rotate 1).length := by rw [List.length_rotate]; exact hi
  have h2 : (i + 1) % l.length < l.length := Nat.mod_lt _ (by omega)
  rw [List.getD_eq_getElem _ _ h1, List.getD_eq_getElem _ _ h2]
  exact List.getElem_rotate l 1 i h1

theorem zip_rotate_getD (l : List LatLng) (d : LatLng) (i : Nat)
    (hi : i < (l.zip (l.rotate 1)).length) :
    (l.zip (l.rotate 1)).getD i (d, d) =
      (l.getD i d, l.getD ((i + 1) % l.length) d) := by
  have hlen : (l.zip (l.rotate 1)).length = l.length := by
    rw [List.length_zip, List.length_rotate, Nat.min_self]
  have hil : i < l.length := hlen ▸ hi
  have h1 : i < (l.rotate 1).length := by rw [List.length_rotate]; exact hil
  have h2 : (i + 1) % l.length < l.length := Nat.mod_lt _ (by omega)
  rw [List.getD_eq_getElem _ _ hi, List.getElem_zip,
    List.getElem_rotate l 1 i h1, List.getD_eq_getElem _ _ hil,
    List.getD_eq_getElem _ _ h2]

theorem calculatePolygonArea_eq_closedWrap {coordinates : List LatLng}
    (h3 : 3 ≤ coordinates.length) :
    calculatePolygonArea coordinates = closedWrapArea coordinates := by
  have hn : 0 < coordinates.length := by omega
  rw [calculatePolygonArea, if_neg (by omega)]
  show |∑ i ∈ Finset.range coordinates.length, polygonTerm coordinates i| *
      GIS_CONFIG.EARTH_RADIUS_KM * GIS_CONFIG.EARTH_RADIUS_KM / 2 = _
  rw [closedWrapArea,
    list_map_sum_getD (fun pq => pairTerm pq.1 pq.2) (⟨0, 0⟩, ⟨0, 0⟩)]
  have hlen : (coordinates.zip (coordinates.rotate 1)).length =
      coordinates.length := by
    rw [List.length_zip, List.length_rotate, Nat.min_self]
  rw [hlen]
  have hsum : ∑ i ∈ Finset.range coordinates.length,
      (fun pq : LatLng × LatLng => pairTerm pq.1 pq.2)
        ((coordinates.zip (coordinates.rotate 1)).getD i (⟨0, 0⟩, ⟨0, 0⟩)) =
      ∑ i ∈ Finset.range coordinates.length, polygonTerm coordinates i := by
    refine Finset.sum_congr rfl fun i hi => ?_
    rw [Finset.mem_range] at hi
    rw [zip_rotate_getD coordinates ⟨0, 0⟩ i (by rw [hlen]; exact hi)]
    rfl
  rw [hsum]

end GISCalculations

/-- Claim C7: `calculatePolygonArea` returns 0 for every coordinate list with
fewer than 3 points (in particular the empty list and all 2-point lists); for
3 or more points it equals the closed-wrap summation over consecutive vertex
pairs, the pair (last, first) included. -/
theorem claim_C7 :
    (∀ coordinates : List GISCalculations.LatLng, coordinates.length < 3 →
      GISCalculations.calculatePolygonArea coordinates = 0) ∧
    (∀ coordinates : List GISCalculations.LatLng, 3 ≤ coordinates.length →
      GISCalculations.calculatePolygonArea coordinates =
        GISCalculations.closedWrapArea coordinates) := by
  constructor
  · intro coordinates h
    rw [GISCalculations.calculatePolygonArea, if_pos h]
  · intro coordinates h
    exact GISCalculations.calculatePolygonArea_eq_closedWrap h

/-- Claim C7 witness: the empty list has area 0, and a concrete 3-point list
is computed by the closed-wrap summation. -/
theorem claim_C7_witness :
    GISCalculations.calculatePolygonArea ([] : List GISCalculations.LatLng) = 0 ∧
    GISCalculations.calculatePolygonArea [⟨0, 0⟩, ⟨0, 1⟩, ⟨1, 1⟩] =
      GISCalculations.closedWrapArea [⟨0, 0⟩, ⟨0, 1⟩, ⟨1, 1⟩] :=
  ⟨claim_C7.1 [] (by simp), claim_C7.2 [⟨0, 0⟩, ⟨0, 1⟩, ⟨1, 1⟩] (by simp)⟩

namespace GISCalculations

/-- The `lat2Rad` binding of `calculateDestination`, named for reuse. -/
noncomputable def destLat2Rad (lat bearing distance : ℝ) : ℝ :=
  Real.arcsin
    (Real.sin (degreesToRadians lat) *
        Real.cos (distance / GIS_CONFIG.EARTH_RADIUS_KM) +
      Real.cos (degreesToRadians lat) *
        Real.sin (distance / GIS_CONFIG.EARTH_RADIUS_KM) *
        Real.cos (degreesToRadians bearing))

/-- The `atan2` term of the `lng2Rad` binding of `calculateDestination`,
named for reuse. -/
noncomputable def destTheta (lat bearing distance : ℝ) : ℝ :=
  atan2
    (Real.sin (degreesToRadians bearing) *
        Real.sin (distance / GIS_CONFIG.EARTH_RADIUS_KM) *
        Real.cos (degreesToRadians lat))
    (Real.cos (distance / GIS_CONFIG.EARTH_RADIUS_KM) -
      Real.sin (degreesToRadians lat) * Real.sin (destLat2Rad lat bearing distance))

theorem calculateDestination_eq (lat lng bearing distance : ℝ) :
    calculateDestination lat lng bearing distance =
      ⟨radiansToDegrees (destLat2Rad lat bearing distance),
        radiansToDegrees (degreesToRadians lng + destTheta lat bearing distance)⟩ :=
  rfl

/-- The destination longitude always lies within a half turn of the starting
longitude, because the `atan2` shift is in (-pi, pi]. -/
theorem destination_lng_bounds (lat lng bearing distance : ℝ) :
    lng - 180 < (calculateDestination lat lng bearing distance).lng ∧
      (calculateDestination lat lng bearing distance).lng ≤ lng + 180 := by
  have hpi := Real.pi_pos
  have hmem : destTheta lat bearing distance ∈ Set.Ioc (-Real.pi) Real.pi := by
    rw [destTheta]
    exact atan2_mem_Ioc _ _
  rw [calculateDestination_eq]
  show lng - 180 <
      radiansToDegrees (degreesToRadians lng + destTheta lat bearing distance) ∧
    radiansToDegrees (degreesToRadians lng + destTheta lat bearing distance) ≤
      lng + 180
  set θ := destTheta lat bearing distance
  have hexp : radiansToDegrees (degreesToRadians lng + θ) =
      lng + θ * (180 / Real.pi) := by
    rw [radiansToDegrees, degreesToRadians]
    field_simp
  rw [hexp]
  have hcanc : Real.pi * (180 / Real.pi) = 180 := by field_simp
  constructor
  · have := (mul_lt_mul_right (by positivity : (0:ℝ) < 180 / Real.pi)).mpr hmem.1
    nlinarith [this, hcanc]
  · have := mul_le_mul_of_nonneg_right hmem.2
      (by positivity : (0:ℝ) ≤ 180 / Real.pi)
    nlinarith [this, hcanc]

end GISCalculations

/-- Claim C6 counterexample: for the distinct points (0, 170) and (0, -170),
projecting from the first by the computed bearing and distance yields a
longitude strictly greater than -10 (in fact 190), which is not within 0.01
degrees of the target longitude -170: the raw round trip misses the target by
a full 360-degree turn, so the claim fails as stated. -/
theorem claim_C6_counterexample :
    ¬ (|(GISCalculations.calculateDestination 0 170
          (GISCalculations.calculateBearing 0 170 0 (-170))
          (GISCalculations.calculateDistance 0 170 0 (-170))).lat - 0| ≤ 0.01 ∧
      |(GISCalculations.calculateDestination 0 170
          (GISCalculations.calculateBearing 0 170 0 (-170))
          (GISCalculations.calculateDistance 0 170 0 (-170))).lng - (-170)| ≤ 0.01) := by
  rintro ⟨-, h⟩
  have hb := (GISCalculations.destination_lng_bounds 0 170
    (GISCalculations.calculateBearing 0 170 0 (-170))
    (GISCalculations.calculateDistance 0 170 0 (-170))).1
  rw [abs_le] at h
  linarith [h.2, hb]

namespace GISCalculations

theorem sin_half_sq (t : ℝ) : Real.sin (t / 2) ^ 2 = (1 - Real.cos t) / 2 := by
  have hcos := Real.cos_two_mul (t / 2)
  rw [show 2 * (t / 2) = t by ring] at hcos
  have hpyth := Real.sin_sq_add_cos_sq (t / 2)
  linear_combination (1 / 2 : ℝ) * hcos + hpyth

theorem sphere_roundtrip {s1 c1 s2 c2 sd cd A θc θ : ℝ}
    (p1 : s1 ^ 2 + c1 ^ 2 = 1) (p2 : s2 ^ 2 + c2 ^ 2 = 1)
    (p3 : sd ^ 2 + cd ^ 2 = 1)
    (hA : 1 - 2 * A = s1 * s2 + c1 * c2 * cd) (hA0 : 0 ≤ A)
    (hθc : θc = atan2 (Real.sqrt A) (Real.sqrt (1 - A)))
    (hθ : θ = atan2 (sd * c2) (c1 * s2 - s1 * c2 * cd)) :
    Real.cos (2 * θc) = s1 * s2 + c1 * c2 * cd ∧
    Real.sin (2 * θc) * Real.sin θ = sd * c2 ∧
    Real.sin (2 * θc) * Real.cos θ = c1 * s2 - s1 * c2 * cd ∧
    0 ≤ Real.sin (2 * θc) := by
  have hxy : (c1 * s2 - s1 * c2 * cd) ^ 2 + (sd * c2) ^ 2 =
      1 - (s1 * s2 + c1 * c2 * cd) ^ 2 := by
    linear_combination (s2 ^ 2 + c2 ^ 2 * cd ^ 2) * p1 + p2 + c2 ^ 2 * p3
  have hC2 : (s1 * s2 + c1 * c2 * cd) ^ 2 ≤ 1 := by
    nlinarith [hxy, sq_nonneg (c1 * s2 - s1 * c2 * cd), sq_nonneg (sd * c2)]
  have hA1 : A ≤ 1 := by
    nlinarith [hC2, sq_nonneg (s1 * s2 + c1 * c2 * cd + 1), hA]
  have hq1 : Real.sqrt A ^ 2 = A := Real.sq_sqrt hA0
  have hq2 : Real.sqrt (1 - A) ^ 2 = 1 - A := Real.sq_sqrt (by linarith)
  have hss : Real.sqrt (Real.sqrt (1 - A) ^ 2 + Real.sqrt A ^ 2) = 1 := by
    rw [hq1, hq2, show 1 - A + A = (1:ℝ) by ring, Real.sqrt_one]
  have hsin_c : Real.sin θc = Real.sqrt A := by
    have h := sin_atan2 (Real.sqrt A) (Real.sqrt (1 - A))
    rw [hss, mul_one] at h
    rw [hθc]
    exact h
  have hcos_c : Real.cos θc = Real.sqrt (1 - A) := by
    have h := cos_atan2 (Real.sqrt A) (Real.sqrt (1 - A))
    rw [hss, mul_one] at h
    rw [hθc]
    exact h
  have hcos2 : Real.cos (2 * θc) = s1 * s2 + c1 * c2 * cd := by
    rw [Real.cos_two_mul, hcos_c, hq2]
    linear_combination hA
  have hsin2 : Real.sin (2 * θc) = 2 * Real.sqrt A * Real.sqrt (1 - A) := by
    rw [Real.sin_two_mul, hsin_c, hcos_c]
  have hS0 : 0 ≤ Real.sin (2 * θc) := by
    rw [hsin2]
    positivity
  have hSsq : (2 * Real.sqrt A * Real.sqrt (1 - A)) ^ 2 =
      1 - (s1 * s2 + c1 * c2 * cd) ^ 2 := by
    have e1 : (2 * Real.sqrt A * Real.sqrt (1 - A)) ^ 2 =
        4 * Real.sqrt A ^ 2 * Real.sqrt (1 - A) ^ 2 := by ring
    rw [e1, hq1, hq2]
    linear_combination (-(1 - 2 * A) - (s1 * s2 + c1 * c2 * cd)) * hA
  have hSr : Real.sqrt ((c1 * s2 - s1 * c2 * cd) ^ 2 + (sd * c2) ^ 2) =
      Real.sin (2 * θc) := by
    rw [hxy, hsin2, ← hSsq, Real.sqrt_sq (by positivity)]
  refine ⟨hcos2, ?_, ?_, hS0⟩
  · have h := sin_atan2 (sd * c2) (c1 * s2 - s1 * c2 * cd)
    rw [hSr] at h
    rw [hθ]
    linear_combination h
  · have h := cos_atan2 (sd * c2) (c1 * s2 - s1 * c2 * cd)
    rw [hSr] at h
    rw [hθ]
    linear_combination h

end GISCalculations

namespace GISCalculations

theorem roundtrip_key (lat1 lng1 lat2 lng2 : ℝ)
    (h1 : -90 < lat1) (h2 : lat1 < 90) (h3 : -90 < lat2) (h4 : lat2 < 90) :
    destLat2Rad lat1 (calculateBearing lat1 lng1 lat2 lng2)
        (calculateDistance lat1 lng1 lat2 lng2) = degreesToRadians lat2 ∧
    ∃ j : ℤ, destTheta lat1 (calculateBearing lat1 lng1 lat2 lng2)
        (calculateDistance lat1 lng1 lat2 lng2) =
      degreesToRadians (lng2 - lng1) - 2 * Real.pi * j := by
  have hpi := Real.pi_pos
  have hRne : GIS_CONFIG.EARTH_RADIUS_KM ≠ 0 := by
    rw [GIS_CONFIG.EARTH_RADIUS_KM]
    norm_num
  have hb1 : degreesToRadians lat1 ∈ Set.Ioo (-(Real.pi / 2)) (Real.pi / 2) := by
    rw [degreesToRadians, Set.mem_Ioo]
    constructor
    · have he : (lat1 + 90) * (Real.pi / 180) =
          lat1 * (Real.pi / 180) + Real.pi / 2 := by ring
      have hp : 0 < (lat1 + 90) * (Real.pi / 180) :=
        mul_pos (by linarith) (by positivity)
      rw [he] at hp
      linarith
    · have he : (90 - lat1) * (Real.pi / 180) =
          Real.pi / 2 - lat1 * (Real.pi / 180) := by ring
      have hp : 0 < (90 - lat1) * (Real.pi / 180) :=
        mul_pos (by linarith) (by positivity)
      rw [he] at hp
      linarith
  have hb2 : degreesToRadians lat2 ∈ Set.Ioo (-(Real.pi / 2)) (Real.pi / 2) := by
    rw [degreesToRadians, Set.mem_Ioo]
    constructor
    · have he : (lat2 + 90) * (Real.pi / 180) =
          lat2 * (Real.pi / 180) + Real.pi / 2 := by ring
      have hp : 0 < (lat2 + 90) * (Real.pi / 180) :=
        mul_pos (by linarith) (by positivity)
      rw [he] at hp
      linarith
    · have he : (90 - lat2) * (Real.pi / 180) =
          Real.pi / 2 - lat2 * (Real.pi / 180) := by ring
      have hp : 0 < (90 - lat2) * (Real.pi / 180) :=
        mul_pos (by linarith) (by positivity)
      rw [he] at hp
      linarith
  have hc1 : 0 < Real.cos (degreesToRadians lat1) := Real.cos_pos_of_mem_Ioo hb1
  have hc2 : 0 < Real.cos (degreesToRadians lat2) := Real.cos_pos_of_mem_Ioo hb2
  have hAval : 1 - 2 * haversineA lat1 lng1 lat2 lng2 =
      Real.sin (degreesToRadians lat1) * Real.sin (degreesToRadians lat2) +
        Real.cos (degreesToRadians lat1) * Real.cos (degreesToRadians lat2) *
          Real.cos (degreesToRadians (lng2 - lng1)) := by
    rw [haversineA]
    have hd1 : degreesToRadians (lat2 - lat1) =
        degreesToRadians lat2 - degreesToRadians lat1 := by
      rw [degreesToRadians, degreesToRadians, degreesToRadians]
      ring
    rw [hd1]
    have e1 : Real.sin ((degreesToRadians lat2 - degreesToRadians lat1) / 2) *
        Real.sin ((degreesToRadians lat2 - degreesToRadians lat1) / 2) =
        (1 - Real.cos (degreesToRadians lat2 - degreesToRadians lat1)) / 2 := by
      rw [show Real.sin ((degreesToRadians lat2 - degreesToRadians lat1) / 2) *
          Real.sin ((degreesToRadians lat2 - degreesToRadians lat1) / 2) =
          Real.sin ((degreesToRadians lat2 - degreesToRadians lat1) / 2) ^ 2 by
            ring,
        sin_half_sq]
    have e2 : Real.sin (degreesToRadians (lng2 - lng1) / 2) ^ 2 =
        (1 - Real.cos (degreesToRadians (lng2 - lng1))) / 2 := sin_half_sq _
    have e3 : Real.cos (degreesToRadians lat2 - degreesToRadians lat1) =
        Real.cos (degreesToRadians lat2) * Real.cos (degreesToRadians lat1) +
          Real.sin (degreesToRadians lat2) * Real.sin (degreesToRadians lat1) :=
      Real.cos_sub _ _
    rw [e1, e3]
    linear_combination (-2 * Real.cos (degreesToRadians lat1) *
      Real.cos (degreesToRadians lat2)) * e2
  have hA0 : 0 ≤ haversineA lat1 lng1 lat2 lng2 := by
    rw [haversineA]
    nlinarith [mul_self_nonneg (Real.sin (degreesToRadians (lat2 - lat1) / 2)),
      mul_self_nonneg (Real.sin (degreesToRadians (lng2 - lng1) / 2)),
      mul_pos hc1 hc2]
  set θc := atan2 (Real.sqrt (haversineA lat1 lng1 lat2 lng2))
    (Real.sqrt (1 - haversineA lat1 lng1 lat2 lng2)) with hθcdef
  set θ := atan2
    (Real.sin (degreesToRadians (lng2 - lng1)) * Real.cos (degreesToRadians lat2))
    (Real.cos (degreesToRadians lat1) * Real.sin (degreesToRadians lat2) -
      Real.sin (degreesToRadians lat1) * Real.cos (degreesToRadians lat2) *
        Real.cos (degreesToRadians (lng2 - lng1))) with hθdef
  obtain ⟨hcos2, hsinθ, hcosθ, hS0⟩ :=
    sphere_roundtrip (Real.sin_sq_add_cos_sq (degreesToRadians lat1))
      (Real.sin_sq_add_cos_sq (degreesToRadians lat2))
      (Real.sin_sq_add_cos_sq (degreesToRadians (lng2 - lng1)))
      hAval hA0 hθcdef hθdef
  have hdR : calculateDistance lat1 lng1 lat2 lng2 / GIS_CONFIG.EARTH_RADIUS_KM =
      2 * θc := by
    rw [calculateDistance_eq, mul_div_cancel_left₀ _ hRne, hθcdef]
  obtain ⟨k, hk⟩ := jsRem_sub_int (θ * 180 / Real.pi + 360) 360
  have hY : bearingY lat1 lng1 lat2 lng2 =
      Real.sin (degreesToRadians (lng2 - lng1)) *
        Real.cos (degreesToRadians lat2) := rfl
  have hX : bearingX lat1 lng1 lat2 lng2 =
      Real.cos (degreesToRadians lat1) * Real.sin (degreesToRadians lat2) -
        Real.sin (degreesToRadians lat1) * Real.cos (degreesToRadians lat2) *
          Real.cos (degreesToRadians (lng2 - lng1)) := rfl
  have hbrad : degreesToRadians (calculateBearing lat1 lng1 lat2 lng2) =
      θ + ((1 - k : ℤ) : ℝ) * (2 * Real.pi) := by
    rw [calculateBearing_eq, hY, hX, ← hθdef, hk, degreesToRadians]
    push_cast
    field_simp
    ring
  have hcosb : Real.cos (degreesToRadians (calculateBearing lat1 lng1 lat2 lng2)) =
      Real.cos θ := by
    rw [hbrad, Real.cos_add_int_mul_two_pi]
  have hsinb : Real.sin (degreesToRadians (calculateBearing lat1 lng1 lat2 lng2)) =
      Real.sin θ := by
    rw [hbrad, Real.sin_add_int_mul_two_pi]
  have hlat : destLat2Rad lat1 (calculateBearing lat1 lng1 lat2 lng2)
      (calculateDistance lat1 lng1 lat2 lng2) = degreesToRadians lat2 := by
    rw [destLat2Rad, hdR, hcosb, hcos2]
    have hinner : Real.sin (degreesToRadians lat1) *
        (Real.sin (degreesToRadians lat1) * Real.sin (degreesToRadians lat2) +
          Real.cos (degreesToRadians lat1) * Real.cos (degreesToRadians lat2) *
            Real.cos (degreesToRadians (lng2 - lng1))) +
        Real.cos (degreesToRadians lat1) * Real.sin (2 * θc) * Real.cos θ =
        Real.sin (degreesToRadians lat2) := by
      linear_combination Real.cos (degreesToRadians lat1) * hcosθ +
        Real.sin (degreesToRadians lat2) *
          Real.sin_sq_add_cos_sq (degreesToRadians lat1)
    rw [hinner]
    exact Real.arcsin_sin hb2.1.le hb2.2.le
  refine ⟨hlat, ?_⟩
  obtain ⟨j, hj⟩ := exists_int_sub_two_pi_mem (degreesToRadians (lng2 - lng1))
  refine ⟨j, ?_⟩
  rw [destTheta, hdR, hsinb, hcos2, hlat]
  have hnum : Real.sin θ * Real.sin (2 * θc) * Real.cos (degreesToRadians lat1) =
      Real.cos (degreesToRadians lat1) * Real.cos (degreesToRadians lat2) *
        Real.sin (degreesToRadians (lng2 - lng1)) := by
    linear_combination Real.cos (degreesToRadians lat1) * hsinθ
  have hden : Real.sin (degreesToRadians lat1) * Real.sin (degreesToRadians lat2) +
      Real.cos (degreesToRadians lat1) * Real.cos (degreesToRadians lat2) *
        Real.cos (degreesToRadians (lng2 - lng1)) -
      Real.sin (degreesToRadians lat1) * Real.sin (degreesToRadians lat2) =
      Real.cos (degreesToRadians lat1) * Real.cos (degreesToRadians lat2) *
        Real.cos (degreesToRadians (lng2 - lng1)) := by
    ring
  rw [hnum, hden, atan2_pos_mul (mul_pos hc1 hc2)]
  have hsd : Real.sin (degreesToRadians (lng2 - lng1)) =
      Real.sin (degreesToRadians (lng2 - lng1) - 2 * Real.pi * j) := by
    rw [show degreesToRadians (lng2 - lng1) - 2 * Real.pi * j =
        degreesToRadians (lng2 - lng1) + (-j : ℤ) * (2 * Real.pi) by
      push_cast; ring,
      Real.sin_add_int_mul_two_pi]
  have hcd : Real.cos (degreesToRadians (lng2 - lng1)) =
      Real.cos (degreesToRadians (lng2 - lng1) - 2 * Real.pi * j) := by
    rw [show degreesToRadians (lng2 - lng1) - 2 * Real.pi * j =
        degreesToRadians (lng2 - lng1) + (-j : ℤ) * (2 * Real.pi) by
      push_cast; ring,
      Real.cos_add_int_mul_two_pi]
  rw [hsd, hcd, atan2_sin_cos hj]

end GISCalculations

namespace GISCalculations

theorem calculateDestination_lat (lat lng bearing distance : ℝ) :
    (calculateDestination lat lng bearing distance).lat =
      radiansToDegrees (destLat2Rad lat bearing distance) := rfl

theorem calculateDestination_lng (lat lng bearing distance : ℝ) :
    (calculateDestination lat lng bearing distance).lng =
      radiansToDegrees (degreesToRadians lng + destTheta lat bearing distance) :=
  rfl

theorem radiansToDegrees_degreesToRadians (x : ℝ) :
    radiansToDegrees (degreesToRadians x) = x := by
  rw [radiansToDegrees, degreesToRadians]
  field_simp

end GISCalculations

/-- Claim C6 (amended): for every pair of points whose latitudes lie strictly
between -90 and 90 (distinct or not), projecting from the first point by the
computed bearing and distance reproduces the target latitude exactly (hence
within the claimed 0.01 degrees) and reproduces the target longitude up to an
exact integer multiple of 360 degrees.  The raw longitude can differ from
`lng2` by a full turn (see the counterexample), and at polar latitudes the
longitude is degenerate, which is what the strict latitude bounds exclude. -/
theorem claim_C6 (lat1 lng1 lat2 lng2 : ℝ)
    (h1 : -90 < lat1) (h2 : lat1 < 90) (h3 : -90 < lat2) (h4 : lat2 < 90) :
    (GISCalculations.calculateDestination lat1 lng1
        (GISCalculations.calculateBearing lat1 lng1 lat2 lng2)
        (GISCalculations.calculateDistance lat1 lng1 lat2 lng2)).lat = lat2 ∧
    |(GISCalculations.calculateDestination lat1 lng1
        (GISCalculations.calculateBearing lat1 lng1 lat2 lng2)
        (GISCalculations.calculateDistance lat1 lng1 lat2 lng2)).lat - lat2| ≤
      0.01 ∧
    ∃ m : ℤ, (GISCalculations.calculateDestination lat1 lng1
        (GISCalculations.calculateBearing lat1 lng1 lat2 lng2)
        (GISCalculations.calculateDistance lat1 lng1 lat2 lng2)).lng =
      lng2 + 360 * m := by
  obtain ⟨hlat, j, hlng⟩ :=
    GISCalculations.roundtrip_key lat1 lng1 lat2 lng2 h1 h2 h3 h4
  have hlatdeg : (GISCalculations.calculateDestination lat1 lng1
      (GISCalculations.calculateBearing lat1 lng1 lat2 lng2)
      (GISCalculations.calculateDistance lat1 lng1 lat2 lng2)).lat = lat2 := by
    rw [GISCalculations.calculateDestination_lat, hlat,
      GISCalculations.radiansToDegrees_degreesToRadians]
  refine ⟨hlatdeg, ?_, ⟨-j, ?_⟩⟩
  · rw [hlatdeg, sub_self, abs_zero]
    norm_num
  · rw [GISCalculations.calculateDestination_lng, hlng,
      GISCalculations.radiansToDegrees, GISCalculations.degreesToRadians,
      GISCalculations.degreesToRadians]
    push_cast
    field_simp
    ring

/-- Claim C6 witness: the round trip from (0, 0) to (10, 20) reproduces the
latitude 10 exactly and the longitude 20 up to a multiple of 360. -/
theorem claim_C6_witness :
    ((-90 : ℝ) < 0 ∧ (0 : ℝ) < 90 ∧ (-90 : ℝ) < 10 ∧ (10 : ℝ) < 90) ∧
    ((GISCalculations.calculateDestination 0 0
        (GISCalculations.calculateBearing 0 0 10 20)
        (GISCalculations.calculateDistance 0 0 10 20)).lat = 10 ∧
      |(GISCalculations.calculateDestination 0 0
          (GISCalculations.calculateBearing 0 0 10 20)
          (GISCalculations.calculateDistance 0 0 10 20)).lat - 10| ≤ 0.01 ∧
      ∃ m : ℤ, (GISCalculations.calculateDestination 0 0
          (GISCalculations.calculateBearing 0 0 10 20)
          (GISCalculations.calculateDistance 0 0 10 20)).lng = 20 + 360 * m) :=
  ⟨⟨by norm_num, by norm_num, by norm_num, by norm_num⟩,
    claim_C6 0 0 10 20 (by norm_num) (by norm_num) (by norm_num) (by norm_num)⟩
